import Mathlib

/-!
Verification of the rule-based game recommender: a shallow embedding of
`game_knowledge_base.py`, `recommendation_engine.py` and `input_parser.py`,
followed by theorems settling the spec claims.

Python dicts are embedded as association lists in literal insertion order,
Python sets as duplicate-free lists (membership is what matters), floats as
rationals, and `None`-returning lookups as `Option`.  The rationale string
built by `_generate_reasoning` is presentation-only text and is not part of
any claim, so it is not modelled in the result record.

The rational-number operations of the standard library are marked
irreducible, which blocks `decide` on concrete scores; restoring their
default transparency lets closed recommendation runs evaluate.  This only
changes elaboration-time unfolding, not any proof term.
-/

set_option linter.unusedVariables false

set_option allowUnsafeReducibility true in
attribute [semireducible] Rat.add Rat.mul Rat.inv Rat.sub Rat.ofScientific

/-- A Python `set(...)` built from a list: one copy of each element.  The
iteration order of a Python set is unspecified, so this keeps the last copy
of each duplicate, which makes the recursion structural. -/
def dedup : List String → List String
  | [] => []
  | x :: xs => if xs.contains x then dedup xs else x :: dedup xs

namespace GameKB

/-- The `genres` dict of `GameKnowledgeBase.__init__`: genre → list of games. -/
def genres : List (String × List String) :=
  [ ("RPG", ["The Witcher 3", "Skyrim", "Final Fantasy XV", "Persona 5", "Divinity: Original Sin 2"]),
    ("Action", ["Grand Theft Auto V", "Assassin\x27s Creed Valhalla", "Call of Duty: Modern Warfare", "Cyberpunk 2077"]),
    ("Adventure", ["The Legend of Zelda: Breath of the Wild", "Uncharted 4", "Tomb Raider", "Life is Strange"]),
    ("Strategy", ["Civilization VI", "Total War: Warhammer III", "Age of Empires IV", "Crusader Kings III"]),
    ("Simulation", ["The Sims 4", "Cities: Skylines", "Euro Truck Simulator 2", "Farming Simulator 22"]),
    ("Puzzle", ["Portal 2", "Tetris Effect", "The Witness", "Baba is You"]),
    ("Indie", ["Hollow Knight", "Celeste", "Stardew Valley", "Among Us", "Cuphead"]),
    ("Horror", ["Resident Evil Village", "Silent Hill", "Outlast", "Amnesia: The Dark Descent"]),
    ("Racing", ["Forza Horizon 5", "Gran Turismo 7", "Mario Kart 8", "Need for Speed Heat"]),
    ("Sports", ["FIFA 23", "NBA 2K23", "Rocket League", "Tony Hawk\x27s Pro Skater 1+2"]) ]

/-- The `age_ratings` dict: game → minimum age. -/
def age_ratings : List (String × Nat) :=
  [ ("The Witcher 3", 18), ("Skyrim", 17), ("Final Fantasy XV", 13), ("Persona 5", 17),
    ("Divinity: Original Sin 2", 17), ("Grand Theft Auto V", 18), ("Assassin\x27s Creed Valhalla", 17),
    ("Call of Duty: Modern Warfare", 17), ("Cyberpunk 2077", 18),
    ("The Legend of Zelda: Breath of the Wild", 10), ("Uncharted 4", 13), ("Tomb Raider", 17),
    ("Life is Strange", 13), ("Civilization VI", 10), ("Total War: Warhammer III", 16),
    ("Age of Empires IV", 10), ("Crusader Kings III", 16), ("The Sims 4", 12),
    ("Cities: Skylines", 10), ("Euro Truck Simulator 2", 3), ("Farming Simulator 22", 3),
    ("Portal 2", 10), ("Tetris Effect", 3), ("The Witness", 10), ("Baba is You", 3),
    ("Hollow Knight", 10), ("Celeste", 10), ("Stardew Valley", 10), ("Among Us", 10),
    ("Cuphead", 10), ("Resident Evil Village", 18), ("Silent Hill", 17), ("Outlast", 18),
    ("Amnesia: The Dark Descent", 17), ("Forza Horizon 5", 3), ("Gran Turismo 7", 3),
    ("Mario Kart 8", 3), ("Need for Speed Heat", 13), ("FIFA 23", 3), ("NBA 2K23", 3),
    ("Rocket League", 3), ("Tony Hawk\x27s Pro Skater 1+2", 10) ]

/-- The `difficulty` dict: tier → list of games. -/
def difficulty : List (String × List String) :=
  [ ("easy", ["The Sims 4", "Cities: Skylines", "Stardew Valley", "Mario Kart 8", "FIFA 23", "Rocket League"]),
    ("medium", ["Skyrim", "The Legend of Zelda: Breath of the Wild", "Uncharted 4", "Civilization VI", "Hollow Knight"]),
    ("hard", ["The Witcher 3", "Dark Souls", "Cuphead", "Celeste", "Total War: Warhammer III"]) ]

/-- The `popularity` dict: tier → list of games. -/
def popularity : List (String × List String) :=
  [ ("very_popular", ["The Witcher 3", "Grand Theft Auto V", "Minecraft", "Among Us", "Rocket League"]),
    ("popular", ["Skyrim", "The Legend of Zelda: Breath of the Wild", "Stardew Valley", "Hollow Knight"]),
    ("niche", ["Divinity: Original Sin 2", "Crusader Kings III", "The Witness", "Baba is You"]) ]

/-- The `platforms` dict: platform → list of games. -/
def platforms : List (String × List String) :=
  [ ("PC", ["The Witcher 3", "Skyrim", "Civilization VI", "Cities: Skylines", "Portal 2", "Hollow Knight"]),
    ("PlayStation", ["The Witcher 3", "Skyrim", "Uncharted 4", "Gran Turismo 7", "Persona 5"]),
    ("Xbox", ["The Witcher 3", "Skyrim", "Forza Horizon 5", "Halo Infinite", "Gears 5"]),
    ("Nintendo", ["The Legend of Zelda: Breath of the Wild", "Mario Kart 8", "Super Mario Odyssey"]),
    ("Mobile", ["Among Us", "Candy Crush Saga", "Clash of Clans", "Pokemon GO"]) ]

/-- `dict.get(k)` on an association list: first entry with the given key. -/
def dictGet (d : List (String × α)) (k : String) : Option α :=
  (d.find? (fun p => p.1 == k)).map (fun p => p.2)

/-- `get_games_by_genre`: `self.genres.get(genre, [])`. -/
def get_games_by_genre (genre : String) : List String :=
  (dictGet genres genre).getD []

/-- `get_games_by_age`: all games whose recorded minimum age is ≤ `age`. -/
def get_games_by_age (age : Nat) : List String :=
  (age_ratings.filter (fun p => p.2 ≤ age)).map (fun p => p.1)

/-- `get_games_by_difficulty`: `self.difficulty.get(level, [])`. -/
def get_games_by_difficulty (level : String) : List String :=
  (dictGet difficulty level).getD []

/-- `get_games_by_popularity`: `self.popularity.get(level, [])`. -/
def get_games_by_popularity (level : String) : List String :=
  (dictGet popularity level).getD []

/-- `get_game_genre`: first genre whose game list contains the game, else `None`. -/
def get_game_genre (game : String) : Option String :=
  (genres.find? (fun p => p.2.contains game)).map (fun p => p.1)

/-- `get_game_age_rating`: `self.age_ratings.get(game, 18)`. -/
def get_game_age_rating (game : String) : Nat :=
  (dictGet age_ratings game).getD 18

/-- `get_all_genres`: the keys of the `genres` dict, in order. -/
def get_all_genres : List String :=
  genres.map (fun p => p.1)

/-- `get_all_games`: the union (a Python set) of all genre lists. -/
def get_all_games : List String :=
  dedup ((genres.map (fun p => p.2)).flatten)

end GameKB

namespace Engine

/-- `_query_age_appropriate_games`: the set of games with rating ≤ age. -/
def query_age_appropriate_games (age : Nat) : List String :=
  (GameKB.age_ratings.filter (fun p => p.2 ≤ age)).map (fun p => p.1)

/-- `_query_genre_games`: union over the given genres of their game lists
(a Python set, hence duplicate-free). -/
def query_genre_games (genres : List String) : List String :=
  dedup (genres.foldl (fun acc g => acc ++ GameKB.get_games_by_genre g) [])

/-- `_intersect_games`: set intersection, as a filter on the first set. -/
def intersect_games (games1 games2 : List String) : List String :=
  games1.filter (fun g => games2.contains g)

/-- `_expand_recommendations`: union of the three fallback strategies, each
intersected with the age-appropriate set; strategy 3 only when `age < 16`. -/
def expand_recommendations (age : Nat) (preferred_genres : List String) : List String :=
  let age_appropriate := query_age_appropriate_games age
  let s1 := intersect_games age_appropriate (GameKB.get_games_by_popularity "very_popular")
  let s2 := intersect_games age_appropriate (GameKB.get_games_by_difficulty "easy")
  let s3 := if age < 16 then
      intersect_games age_appropriate (query_genre_games ["Puzzle", "Racing", "Sports"])
    else []
  dedup (s1 ++ s2 ++ s3)

/-- One entry of the ranked list built by `_rank_recommendations`. -/
structure Recommendation where
  name : String
  genre : Option String
  age_rating : Nat
  relevance_score : ℚ
  platforms : List String
deriving DecidableEq

/-- `_calculate_relevance_score`: additive rule bonuses, clamped at 1.0. -/
def calculate_relevance_score (game : String) (age : Nat) (preferred_genres : List String) : ℚ :=
  let s1 : ℚ := if GameKB.get_game_age_rating game ≤ age then 3/10 else 0
  let s2 : ℚ := if (GameKB.get_game_genre game).any (fun g => preferred_genres.contains g)
    then 4/10 else 0
  let s3 : ℚ := if (GameKB.get_games_by_popularity "very_popular").contains game then 2/10
    else if (GameKB.get_games_by_popularity "popular").contains game then 1/10
    else 0
  let s4 : ℚ := if age < 16 then
      (if (GameKB.get_games_by_difficulty "easy").contains game then 1/10 else 0)
    else
      (if (GameKB.get_games_by_difficulty "medium").contains game then 1/10 else 0)
  min (s1 + s2 + s3 + s4) 1

/-- `_get_game_platforms`: every platform whose game list contains the game. -/
def get_game_platforms (game : String) : List String :=
  (GameKB.platforms.filter (fun p => p.2.contains game)).map (fun p => p.1)

/-- The `game_info` record built for one game inside `_rank_recommendations`. -/
def make_rec (game : String) (age : Nat) (preferred_genres : List String) : Recommendation :=
  { name := game,
    genre := GameKB.get_game_genre game,
    age_rating := GameKB.get_game_age_rating game,
    relevance_score := calculate_relevance_score game age preferred_genres,
    platforms := get_game_platforms game }

/-- Stable insertion into a list sorted by descending score: the new record
goes after every earlier record with an equal or higher score, mirroring
`list.sort(key=..., reverse=True)` which is a stable descending sort. -/
def insert_desc (r : Recommendation) : List Recommendation → List Recommendation
  | [] => [r]
  | x :: xs =>
    if x.relevance_score < r.relevance_score then r :: x :: xs
    else x :: insert_desc r xs

/-- `_rank_recommendations`: build a record per game, sort by score descending. -/
def rank_recommendations (games : List String) (age : Nat) (preferred_genres : List String) :
    List Recommendation :=
  (games.map (fun g => make_rec g age preferred_genres)).foldl
    (fun acc r => insert_desc r acc) []

/-- The candidate pool of `get_recommendations`: the age∩genre intersection,
or the fallback expansion when that intersection is empty. -/
def recommend_pool (age : Nat) (preferred_genres : List String) : List String :=
  let primary := intersect_games (query_age_appropriate_games age)
    (query_genre_games preferred_genres)
  if primary.isEmpty then expand_recommendations age preferred_genres else primary

/-- The result dict of `get_recommendations` (the rationale string of
`_generate_reasoning` is presentation-only and not modelled). -/
structure RecommendationResult where
  recommendations : List Recommendation
  total_found : Nat
  age_appropriate_count : Nat
  genre_matching_count : Nat
deriving DecidableEq

/-- `get_recommendations`: intersection, fallback on empty, ranking, counts. -/
def get_recommendations (age : Nat) (preferred_genres : List String) : RecommendationResult :=
  let sorted := rank_recommendations (recommend_pool age preferred_genres) age preferred_genres
  { recommendations := sorted,
    total_found := sorted.length,
    age_appropriate_count := (query_age_appropriate_games age).length,
    genre_matching_count := (query_genre_games preferred_genres).length }

/-- `get_alternative_recommendations`: same ranking algorithm, invoked on the
complement of the excluded genres within all catalog genres. -/
def get_alternative_recommendations (age : Nat) (excluded_genres : List String) :
    RecommendationResult :=
  let alternative_genres := GameKB.get_all_genres.filter (fun g => !(excluded_genres.contains g))
  get_recommendations age alternative_genres

end Engine

namespace Parser

/-!
Embedding of `input_parser.py`.  The fixed regular expressions of the source
use only literal characters, the classes `\s`, `\d` and `[^.]`, the greedy
quantifiers `*` and `+`, single-character `?`, and one capturing group
`(\d+)` or `([^.]+)` per pattern.  They are transcribed into token lists and
run by a backtracking matcher with Python semantics: leftmost match wins,
greedy quantifiers try the longest repetition first, `?` prefers presence.
-/

/-- One token of a transcribed regular expression.  A quantified class is a
single-character class; `grp1 f` is a capturing group `(f+)`. -/
inductive Tok where
  | lit (c : Char)
  | optc (c : Char)
  | cls0 (f : Char → Bool)
  | cls1 (f : Char → Bool)
  | grp1 (f : Char → Bool)

/-- First successful result of `f` over the candidate list (backtracking). -/
def firstSome (f : Nat → Option α) : List Nat → Option α
  | [] => none
  | k :: ks =>
    match f k with
    | some r => some r
    | none => firstSome f ks

/-- Match a token list against a prefix of `s`, returning the list of
captured groups on success.  Greedy quantifiers enumerate repetition counts
from the maximal run downwards. -/
def tryToks : List Tok → List Char → Option (List (List Char))
  | [], _ => some []
  | Tok.lit _ :: _, [] => none
  | Tok.lit c :: ts, x :: xs => if x = c then tryToks ts xs else none
  | Tok.optc _ :: ts, [] => tryToks ts []
  | Tok.optc c :: ts, x :: xs =>
    if x = c then
      match tryToks ts xs with
      | some r => some r
      | none => tryToks ts (x :: xs)
    else tryToks ts (x :: xs)
  | Tok.cls0 f :: ts, s =>
    firstSome (fun k => tryToks ts (s.drop k)) (List.range ((s.takeWhile f).length + 1)).reverse
  | Tok.cls1 f :: ts, s =>
    firstSome (fun k => tryToks ts (s.drop (k + 1))) (List.range (s.takeWhile f).length).reverse
  | Tok.grp1 f :: ts, s =>
    firstSome (fun k => (tryToks ts (s.drop (k + 1))).map (fun caps => s.take (k + 1) :: caps))
      (List.range (s.takeWhile f).length).reverse

/-- `re.search`: try the pattern at each start position from the left and
return the first capturing group of the first match. -/
def reSearch (toks : List Tok) : List Char → Option (List Char)
  | [] =>
    match tryToks toks [] with
    | some caps => some (caps.headD [])
    | none => none
  | c :: rest =>
    match tryToks toks (c :: rest) with
    | some caps => some (caps.headD [])
    | none => reSearch toks rest

/-- The `\s` class (the whitespace the inputs contain is ASCII). -/
def isSpaceCh (c : Char) : Bool :=
  c = ' ' || c = '\t' || c = '\n' || c = '\r'

/-- The `\d` class on the ASCII digits the inputs contain. -/
def isDigitCh (c : Char) : Bool :=
  '0' ≤ c && c ≤ '9'

/-- The `[^.]` class: any character except a dot. -/
def isNotDot (c : Char) : Bool :=
  !(c = '.')

/-- A run of literal tokens. -/
def lits (s : String) : List Tok := s.toList.map Tok.lit

/-- `str.lower()` on the alphabets the program uses (ASCII and Cyrillic). -/
def lowerChar (c : Char) : Char :=
  if 'A' ≤ c ∧ c ≤ 'Z' then Char.ofNat (c.toNat + 32)
  else if 'А' ≤ c ∧ c ≤ 'Я' then Char.ofNat (c.toNat + 32)
  else if c = 'Ё' then 'ё'
  else c

/-- The `age_patterns` list of `InputParser.__init__`, in priority order. -/
def age_patterns : List (List Tok) :=
  [ lits "мне" ++ [Tok.cls1 isSpaceCh, Tok.grp1 isDigitCh, Tok.cls1 isSpaceCh] ++ lits "лет",
    lits "возраст" ++ [Tok.cls0 isSpaceCh, Tok.optc ':', Tok.cls0 isSpaceCh, Tok.grp1 isDigitCh],
    [Tok.grp1 isDigitCh, Tok.cls1 isSpaceCh] ++ lits "лет",
    lits "я" ++ [Tok.cls1 isSpaceCh, Tok.grp1 isDigitCh, Tok.cls1 isSpaceCh] ++ lits "лет" ]

/-- The `known_genres` list. -/
def known_genres : List String :=
  ["RPG", "Action", "Adventure", "Strategy", "Simulation",
   "Puzzle", "Indie", "Horror", "Racing", "Sports"]

/-- The `genre_patterns` list: a preference-introducing phrase followed by a
captured span of non-dot characters. -/
def genre_patterns : List (List Tok) :=
  [ lits "мне" ++ [Tok.cls1 isSpaceCh] ++ lits "нравятс" ++
      [Tok.optc 'я', Tok.cls0 isSpaceCh, Tok.optc ':', Tok.cls0 isSpaceCh, Tok.grp1 isNotDot],
    lits "люблю" ++ [Tok.cls0 isSpaceCh, Tok.optc ':', Tok.cls0 isSpaceCh, Tok.grp1 isNotDot],
    lits "интерес" ++ [Tok.optc 'ы', Tok.cls0 isSpaceCh, Tok.optc ':', Tok.cls0 isSpaceCh,
      Tok.grp1 isNotDot],
    lits "предпочтени" ++ [Tok.optc 'я', Tok.cls0 isSpaceCh, Tok.optc ':', Tok.cls0 isSpaceCh,
      Tok.grp1 isNotDot],
    lits "жанр" ++ [Tok.optc 'ы', Tok.cls0 isSpaceCh, Tok.optc ':', Tok.cls0 isSpaceCh,
      Tok.grp1 isNotDot] ]

/-- `int(...)` on a non-empty digit string. -/
def digitsToNat (ds : List Char) : Nat :=
  ds.foldl (fun a c => 10 * a + (c.toNat - 48)) 0

/-- The loop body of `_extract_age`: first pattern whose match parses to an
age within `[3, 100]`; an out-of-range match falls through to the next. -/
def extract_age_from (tl : List Char) : List (List Tok) → Option Nat
  | [] => none
  | p :: ps =>
    match reSearch p tl with
    | some ds =>
      let age := digitsToNat ds
      if 3 ≤ age ∧ age ≤ 100 then some age else extract_age_from tl ps
    | none => extract_age_from tl ps

/-- `_extract_age`: search the lowercased text with each age pattern. -/
def extract_age (text : List Char) : Option Nat :=
  extract_age_from (text.map lowerChar) age_patterns

/-- Substring containment, Python `needle in hay`. -/
def isSubstr (needle : List Char) : List Char → Bool
  | [] => needle.isEmpty
  | c :: rest => needle.isPrefixOf (c :: rest) || isSubstr needle rest

/-- `str.strip()`: drop surrounding whitespace. -/
def stripChars (s : List Char) : List Char :=
  ((s.dropWhile isSpaceCh).reverse.dropWhile isSpaceCh).reverse

/-- The splitting class of `re.split(r'[,.\-;]', ...)`. -/
def isDelim (c : Char) : Bool :=
  c = ',' || c = '.' || c = '-' || c = ';'

/-- `re.split` on the delimiter class (empty pieces are kept). -/
def splitDelims : List Char → List (List Char)
  | [] => [[]]
  | c :: rest =>
    if isDelim c then [] :: splitDelims rest
    else
      match splitDelims rest with
      | [] => [[c]]
      | p :: ps => (c :: p) :: ps

/-- The `genre_mappings` dict of `_parse_genres_from_text`: localized
colloquial genre names mapped to canonical labels, in insertion order. -/
def genre_mappings : List (String × String) :=
  [ ("инди", "Indie"), ("инди-игры", "Indie"), ("инди игры", "Indie"),
    ("ролевые", "RPG"), ("ролевые игры", "RPG"),
    ("экшен", "Action"), ("экшн", "Action"),
    ("приключения", "Adventure"),
    ("стратегия", "Strategy"), ("стратегии", "Strategy"),
    ("симулятор", "Simulation"), ("симуляторы", "Simulation"),
    ("головоломки", "Puzzle"), ("головоломка", "Puzzle"),
    ("ужасы", "Horror"), ("хоррор", "Horror"),
    ("гонки", "Racing"),
    ("спорт", "Sports"), ("спортивные", "Sports") ]

/-- `_parse_genres_from_text`: the synonym table scanned first over the
lowercased span, then each delimiter-separated piece matched against the
known genres by case-insensitive substring containment. -/
def parse_genres_from_text (genres_text : List Char) : List String :=
  let text_lower := genres_text.map lowerChar
  let mapped := (genre_mappings.filter (fun m => isSubstr m.1.toList text_lower)).map
    (fun m => m.2)
  let parts := splitDelims genres_text
  let from_parts := parts.foldl (fun acc part =>
    let part := stripChars part
    if part.isEmpty then acc
    else acc ++ known_genres.filter
      (fun g => isSubstr (g.toList.map lowerChar) (part.map lowerChar))) []
  mapped ++ from_parts

/-- `_extract_genres`: phase 1 collects the parsed spans of every matching
genre pattern; phase 2, only if phase 1 found nothing, scans the whole text
for known genre names; the result is de-duplicated. -/
def extract_genres (text : List Char) : List String :=
  let text_lower := text.map lowerChar
  let found := genre_patterns.foldl (fun acc p =>
    match reSearch p text_lower with
    | some span => acc ++ parse_genres_from_text span
    | none => acc) []
  let found := if found.isEmpty then
      known_genres.filter (fun g => isSubstr (g.toList.map lowerChar) text_lower)
    else found
  dedup found

/-- The dict returned by `parse_input`. -/
structure ParsedData where
  age : Option Nat
  genres : List String
  original_input : String
deriving DecidableEq

/-- `parse_input`: strip the input, then extract age and genres from it. -/
def parse_input (user_input : String) : ParsedData :=
  let stripped := stripChars user_input.toList
  { age := extract_age stripped,
    genres := extract_genres stripped,
    original_input := String.mk stripped }

/-- The dict returned by `validate_input`: the parsed fields plus the
validity annotations. -/
structure ValidatedData where
  age : Option Nat
  genres : List String
  original_input : String
  age_valid : Bool
  age_error : Option String
  genres_valid : Bool
  genres_error : Option String
  is_valid : Bool
deriving DecidableEq

/-- `validate_input`: copy the parsed data and annotate it with validity
flags and error messages. -/
def validate_input (p : ParsedData) : ValidatedData :=
  let age_valid := match p.age with | none => false | some _ => true
  let age_error : Option String :=
    match p.age with | none => some "Возраст не найден в тексте" | some _ => none
  let genres_valid := if p.genres.isEmpty then false else true
  let genres_error : Option String :=
    if p.genres.isEmpty then some "Жанры не найдены в тексте" else none
  { age := p.age,
    genres := p.genres,
    original_input := p.original_input,
    age_valid := age_valid,
    age_error := age_error,
    genres_valid := genres_valid,
    genres_error := genres_error,
    is_valid := age_valid && genres_valid }

/-- `get_parsing_examples`: the canonical example phrasings shown to the
user, in the input language of the program. -/
def get_parsing_examples : List String :=
  [ "Мне 13 лет, мне нравятся: RPG, инди-игры",
    "Возраст: 25, люблю Action и Strategy",
    "Я 18 лет, интересы: Horror, Adventure",
    "Мне 30 лет, предпочтения: Simulation, Puzzle",
    "Возраст 16, нравятся Racing и Sports" ]

end Parser

/-!
Helper lemmas shared by the claim theorems.
-/

theorem mem_dedup {x : String} {l : List String} : x ∈ dedup l ↔ x ∈ l := by
  induction l with
  | nil => simp [dedup]
  | cons y ys ih =>
    by_cases h : ys.contains y
    · have hy : y ∈ ys := by simpa [List.contains] using h
      rw [dedup, if_pos h, ih, List.mem_cons]
      constructor
      · exact Or.inr
      · rintro (rfl | hx)
        · exact hy
        · exact hx
    · rw [dedup, if_neg h, List.mem_cons, List.mem_cons, ih]

theorem dictGet_eq_of_mem {α : Type} {l : List (String × α)} {k : String} {v : α}
    (hnd : (l.map (fun p => p.1)).Nodup) (hm : (k, v) ∈ l) :
    GameKB.dictGet l k = some v := by
  induction l with
  | nil => cases hm
  | cons hd tl ih =>
    rw [List.map_cons, List.nodup_cons] at hnd
    rcases List.mem_cons.mp hm with heq | htl
    · cases heq.symm
      simp [GameKB.dictGet]
    · have hk : (hd.1 == k) = false := by
        simp only [beq_eq_false_iff_ne, ne_eq]
        intro e
        exact hnd.1 (e ▸ List.mem_map.mpr ⟨(k, v), htl, rfl⟩)
      rw [GameKB.dictGet, List.find?_cons, hk]
      exact ih hnd.2 htl

theorem age_keys_nodup : (GameKB.age_ratings.map (fun p => p.1)).Nodup := by decide

theorem mem_query_age {age : Nat} {g : String} :
    g ∈ Engine.query_age_appropriate_games age ↔
      ∃ r, (g, r) ∈ GameKB.age_ratings ∧ r ≤ age := by
  simp only [Engine.query_age_appropriate_games, List.mem_map, List.mem_filter,
    decide_eq_true_eq]
  constructor
  · rintro ⟨⟨g', r⟩, ⟨hm, hr⟩, rfl⟩
    exact ⟨r, hm, hr⟩
  · rintro ⟨r, hm, hr⟩
    exact ⟨(g, r), ⟨hm, hr⟩, rfl⟩

theorem rating_le_of_mem_query {age : Nat} {g : String}
    (h : g ∈ Engine.query_age_appropriate_games age) :
    GameKB.get_game_age_rating g ≤ age := by
  obtain ⟨r, hm, hr⟩ := mem_query_age.mp h
  have e := dictGet_eq_of_mem age_keys_nodup hm
  simpa [GameKB.get_game_age_rating, e] using hr

theorem mem_pool_subset {age : Nat} {gs : List String} {g : String}
    (h : g ∈ Engine.recommend_pool age gs) :
    g ∈ Engine.query_age_appropriate_games age := by
  simp only [Engine.recommend_pool] at h
  split at h
  · simp only [Engine.expand_recommendations, Engine.intersect_games, mem_dedup,
      List.mem_append] at h
    rcases h with (h | h) | h
    · exact (List.mem_filter.mp h).1
    · exact (List.mem_filter.mp h).1
    · split at h
      · exact (List.mem_filter.mp h).1
      · cases h
  · exact (List.mem_filter.mp h).1

theorem mem_insert_desc {x r : Engine.Recommendation} {l : List Engine.Recommendation} :
    x ∈ Engine.insert_desc r l ↔ x = r ∨ x ∈ l := by
  induction l with
  | nil => simp [Engine.insert_desc]
  | cons y ys ih =>
    rw [Engine.insert_desc]
    split
    · simp [List.mem_cons]
    · rw [List.mem_cons, List.mem_cons, ih]
      tauto

theorem mem_sort_fold (x : Engine.Recommendation) (l acc : List Engine.Recommendation) :
    x ∈ l.foldl (fun acc r => Engine.insert_desc r acc) acc ↔ x ∈ acc ∨ x ∈ l := by
  induction l generalizing acc with
  | nil => simp
  | cons y ys ih =>
    rw [List.foldl_cons, ih, mem_insert_desc, List.mem_cons]
    tauto

theorem mem_rank {rec : Engine.Recommendation} {games : List String} {age : Nat}
    {gs : List String} :
    rec ∈ Engine.rank_recommendations games age gs ↔
      ∃ g, g ∈ games ∧ rec = Engine.make_rec g age gs := by
  rw [Engine.rank_recommendations, mem_sort_fold]
  simp only [List.not_mem_nil, false_or, List.mem_map]
  constructor
  · rintro ⟨g, hg, rfl⟩
    exact ⟨g, hg, rfl⟩
  · rintro ⟨g, hg, rfl⟩
    exact ⟨g, hg, rfl⟩

theorem recs_eq (age : Nat) (gs : List String) :
    (Engine.get_recommendations age gs).recommendations =
      Engine.rank_recommendations (Engine.recommend_pool age gs) age gs := rfl

theorem score_nonneg (g : String) (age : Nat) (gs : List String) :
    0 ≤ Engine.calculate_relevance_score g age gs := by
  simp only [Engine.calculate_relevance_score]
  refine le_min (add_nonneg (add_nonneg (add_nonneg ?_ ?_) ?_) ?_) (by norm_num) <;>
    (split <;> (try split) <;> norm_num)

theorem score_le_one (g : String) (age : Nat) (gs : List String) :
    Engine.calculate_relevance_score g age gs ≤ 1 := by
  simp only [Engine.calculate_relevance_score]
  exact min_le_right _ _

theorem score_ge_of_age_fit {g : String} {age : Nat} (gs : List String)
    (h : GameKB.get_game_age_rating g ≤ age) :
    3/10 ≤ Engine.calculate_relevance_score g age gs := by
  simp only [Engine.calculate_relevance_score]
  refine le_min ?_ (by norm_num)
  rw [if_pos h]
  have step : ∀ x y : ℚ, 0 ≤ y → 3/10 ≤ x → 3/10 ≤ x + y := by
    intro x y hy hx
    linarith
  refine step _ _ ?_ (step _ _ ?_ (step _ _ ?_ le_rfl)) <;>
    (split <;> (try split) <;> norm_num)

theorem pairwise_insert {r : Engine.Recommendation} {l : List Engine.Recommendation}
    (h : l.Pairwise (fun a b => b.relevance_score ≤ a.relevance_score)) :
    (Engine.insert_desc r l).Pairwise (fun a b => b.relevance_score ≤ a.relevance_score) := by
  induction l with
  | nil => simp [Engine.insert_desc]
  | cons y ys ih =>
    rcases List.pairwise_cons.mp h with ⟨hy, hys⟩
    rw [Engine.insert_desc]
    split
    · rename_i hlt
      refine List.pairwise_cons.mpr ⟨?_, h⟩
      intro b hb
      rcases List.mem_cons.mp hb with rfl | hb
      · exact le_of_lt hlt
      · exact le_trans (hy b hb) (le_of_lt hlt)
    · rename_i hnlt
      refine List.pairwise_cons.mpr ⟨?_, ih hys⟩
      intro b hb
      rcases mem_insert_desc.mp hb with rfl | hb
      · exact not_lt.mp hnlt
      · exact hy b hb

theorem pairwise_fold (l : List Engine.Recommendation) {acc : List Engine.Recommendation}
    (hacc : acc.Pairwise (fun a b => b.relevance_score ≤ a.relevance_score)) :
    (l.foldl (fun acc r => Engine.insert_desc r acc) acc).Pairwise
      (fun a b => b.relevance_score ≤ a.relevance_score) := by
  induction l generalizing acc with
  | nil => exact hacc
  | cons y ys ih => exact ih (pairwise_insert hacc)

/-!
The claim theorems.
-/

/-- Claim C1 (amended).  The spec renders the canonical example phrasings in
English, but the extraction patterns of `parse_input` are Russian-only: on
the literal English strings the stated genres are extracted while the age is
absent (`none`), and the stated ages together with the genres are reproduced
on the program's own Russian canonical phrasings from
`get_parsing_examples`. -/
theorem claim_c1 :
    ((Parser.parse_input "I am 13 years old, I like: RPG, indie").age = none ∧
      "RPG" ∈ (Parser.parse_input "I am 13 years old, I like: RPG, indie").genres ∧
      "Indie" ∈ (Parser.parse_input "I am 13 years old, I like: RPG, indie").genres) ∧
    ((Parser.parse_input "Age: 25, I love Action and Strategy").age = none ∧
      "Action" ∈ (Parser.parse_input "Age: 25, I love Action and Strategy").genres ∧
      "Strategy" ∈ (Parser.parse_input "Age: 25, I love Action and Strategy").genres) ∧
    ((Parser.parse_input "Мне 13 лет, мне нравятся: RPG, инди-игры").age = some 13 ∧
      "RPG" ∈ (Parser.parse_input "Мне 13 лет, мне нравятся: RPG, инди-игры").genres ∧
      "Indie" ∈ (Parser.parse_input "Мне 13 лет, мне нравятся: RPG, инди-игры").genres) ∧
    ((Parser.parse_input "Возраст: 25, люблю Action и Strategy").age = some 25 ∧
      "Action" ∈ (Parser.parse_input "Возраст: 25, люблю Action и Strategy").genres ∧
      "Strategy" ∈ (Parser.parse_input "Возраст: 25, люблю Action и Strategy").genres) := by
  decide

/-- Claim C1, counterexample to the claim as stated: on the literal English
phrasing the extractor does not produce age 13 (its age patterns only match
the Russian wordings). -/
theorem claim_c1_counterexample :
    ¬ ((Parser.parse_input "I am 13 years old, I like: RPG, indie").age = some 13) := by
  decide

/-- Claim C2: every game in the ranked list returned by
`get_recommendations` has a recorded minimum age rating ≤ the requested age,
on the primary intersection path and on the fallback path alike. -/
theorem claim_c2 (age : Nat) (preferred_genres : List String) (rec : Engine.Recommendation)
    (hrec : rec ∈ (Engine.get_recommendations age preferred_genres).recommendations) :
    rec.age_rating ≤ age := by
  rw [recs_eq] at hrec
  obtain ⟨g, hg, rfl⟩ := mem_rank.mp hrec
  exact rating_le_of_mem_query (mem_pool_subset hg)

/-- Claim C2, witness: `recommend(13, {"RPG"})` returns Final Fantasy XV,
whose rating 13 satisfies the bound. -/
theorem claim_c2_witness :
    ({ name := "Final Fantasy XV", genre := some "RPG", age_rating := 13,
       relevance_score := 7/10, platforms := [] } : Engine.Recommendation).age_rating ≤ 13 :=
  claim_c2 13 ["RPG"] _ (by decide)

/-- Claim C3: for a game name absent from the catalog, the genre lookup
returns the `None` sentinel and the age-rating lookup returns the
conservative default 18; both lookups are total functions of the name. -/
theorem claim_c3 (game : String)
    (h1 : ∀ p ∈ GameKB.genres, game ∉ p.2)
    (h2 : ∀ p ∈ GameKB.age_ratings, p.1 ≠ game) :
    GameKB.get_game_genre game = none ∧ GameKB.get_game_age_rating game = 18 := by
  constructor
  · rw [GameKB.get_game_genre, Option.map_eq_none', List.find?_eq_none]
    intro p hp
    simp only [List.contains, List.elem_eq_mem, decide_eq_true_eq]
    exact h1 p hp
  · rw [GameKB.get_game_age_rating, GameKB.dictGet, List.find?_eq_none.mpr]
    · rfl
    · intro p hp
      simp only [beq_iff_eq]
      exact h2 p hp

/-- Claim C3, witness: Minecraft appears in the popularity table but in
neither the genre table nor the age table. -/
theorem claim_c3_witness :
    GameKB.get_game_genre "Minecraft" = none ∧ GameKB.get_game_age_rating "Minecraft" = 18 :=
  claim_c3 "Minecraft" (by decide) (by decide)

/-- Claim C4: when the age∩genre intersection is empty, the returned list is
non-empty whenever some very-popular game or some easy-difficulty game is in
the age-eligible set. -/
theorem claim_c4 (age : Nat) (preferred_genres : List String)
    (hempty : Engine.intersect_games (Engine.query_age_appropriate_games age)
      (Engine.query_genre_games preferred_genres) = [])
    (hfall : (∃ g, g ∈ Engine.query_age_appropriate_games age ∧
        g ∈ GameKB.get_games_by_popularity "very_popular") ∨
      (∃ g, g ∈ Engine.query_age_appropriate_games age ∧
        g ∈ GameKB.get_games_by_difficulty "easy")) :
    (Engine.get_recommendations age preferred_genres).recommendations ≠ [] := by
  have hpool : Engine.recommend_pool age preferred_genres =
      Engine.expand_recommendations age preferred_genres := by
    simp [Engine.recommend_pool, hempty]
  have hexp : ∃ g, g ∈ Engine.expand_recommendations age preferred_genres := by
    rcases hfall with ⟨g, hga, hgx⟩ | ⟨g, hga, hgx⟩
    · refine ⟨g, ?_⟩
      simp only [Engine.expand_recommendations, Engine.intersect_games, mem_dedup,
        List.mem_append]
      left; left
      exact List.mem_filter.mpr ⟨hga, by simpa [List.contains] using hgx⟩
    · refine ⟨g, ?_⟩
      simp only [Engine.expand_recommendations, Engine.intersect_games, mem_dedup,
        List.mem_append]
      left; right
      exact List.mem_filter.mpr ⟨hga, by simpa [List.contains] using hgx⟩
  obtain ⟨g, hg⟩ := hexp
  rw [recs_eq]
  exact List.ne_nil_of_mem (mem_rank.mpr ⟨g, by rw [hpool]; exact hg, rfl⟩)

/-- Claim C4, witness: a three-year-old asking for Horror gets an empty
intersection, and Rocket League (very popular, rated 3) fills the fallback. -/
theorem claim_c4_witness :
    (Engine.get_recommendations 3 ["Horror"]).recommendations ≠ [] :=
  claim_c4 3 ["Horror"] (by decide) (Or.inl ⟨"Rocket League", by decide, by decide⟩)

/-- Claim C5: the Catalog's age query returns exactly the games whose
recorded minimum age rating is ≤ the requested age, and is therefore
monotone in the age. -/
theorem claim_c5 :
    (∀ (age : Nat) (g : String), g ∈ GameKB.get_games_by_age age ↔
      ∃ r, (g, r) ∈ GameKB.age_ratings ∧ r ≤ age) ∧
    (∀ age : Nat, GameKB.get_games_by_age age ⊆ GameKB.get_games_by_age (age + 1)) := by
  have hmem : ∀ (age : Nat) (g : String), g ∈ GameKB.get_games_by_age age ↔
      ∃ r, (g, r) ∈ GameKB.age_ratings ∧ r ≤ age := by
    intro age g
    show g ∈ Engine.query_age_appropriate_games age ↔ _
    exact mem_query_age
  refine ⟨hmem, ?_⟩
  intro age g hg
  obtain ⟨r, hm, hr⟩ := (hmem age g).mp hg
  exact (hmem (age + 1) g).mpr ⟨r, hm, Nat.le_succ_of_le hr⟩

/-- Claim C6: `get_alternative_recommendations(18, {"RPG"})` returns no game
whose genre is RPG, and the alternatives entry point is literally the same
ranking algorithm applied to the complement genre set. -/
theorem claim_c6 :
    ((Engine.get_alternative_recommendations 18 ["RPG"]).recommendations.all
      (fun r => !(r.genre == some "RPG"))) = true ∧
    ∀ (age : Nat) (excluded_genres : List String),
      Engine.get_alternative_recommendations age excluded_genres =
        Engine.get_recommendations age
          (GameKB.get_all_genres.filter (fun g => !(excluded_genres.contains g))) :=
  ⟨by decide, fun _ _ => rfl⟩

/-- Claim C7: for every game, age and genre list, the relevance score
computed by `_calculate_relevance_score` lies in `[0, 1]` — unconditionally,
it is a clamped sum of non-negative rule bonuses — and consequently so does
the score of every entry of every returned recommendation list. -/
theorem claim_c7 (game : String) (age : Nat) (preferred_genres : List String) :
    (0 ≤ Engine.calculate_relevance_score game age preferred_genres ∧
      Engine.calculate_relevance_score game age preferred_genres ≤ 1) ∧
    (∀ rec ∈ (Engine.get_recommendations age preferred_genres).recommendations,
      0 ≤ rec.relevance_score ∧ rec.relevance_score ≤ 1) := by
  refine ⟨⟨score_nonneg game age preferred_genres, score_le_one game age preferred_genres⟩, ?_⟩
  intro rec hrec
  rw [recs_eq] at hrec
  obtain ⟨g, hg, rfl⟩ := mem_rank.mp hrec
  exact ⟨score_nonneg g age preferred_genres, score_le_one g age preferred_genres⟩

/-- Claim C7, witness: the bounds hold for the score of The Witcher 3 for a
13-year-old RPG fan and for the single returned entry of that query. -/
theorem claim_c7_witness :
    (0 ≤ Engine.calculate_relevance_score "The Witcher 3" 13 ["RPG"] ∧
      Engine.calculate_relevance_score "The Witcher 3" 13 ["RPG"] ≤ 1) ∧
    (0 ≤ (⟨"Final Fantasy XV", some "RPG", 13, 7/10, []⟩ :
        Engine.Recommendation).relevance_score ∧
      (⟨"Final Fantasy XV", some "RPG", 13, 7/10, []⟩ :
        Engine.Recommendation).relevance_score ≤ 1) :=
  ⟨(claim_c7 "The Witcher 3" 13 ["RPG"]).1,
   (claim_c7 "Final Fantasy XV" 13 ["RPG"]).2 _ (by decide)⟩

/-- Claim C8: every returned recommendation list is sorted non-increasingly
by relevance score (each adjacent pair is ordered). -/
theorem claim_c8 (age : Nat) (preferred_genres : List String) :
    List.Chain' (fun a b : Engine.Recommendation => b.relevance_score ≤ a.relevance_score)
      (Engine.get_recommendations age preferred_genres).recommendations := by
  rw [recs_eq, Engine.rank_recommendations]
  exact List.Pairwise.chain' (pairwise_fold _ List.Pairwise.nil)

/-- Claim C9: `validate_input` marks the age invalid exactly when it is
absent, the genres invalid exactly when they are empty, and the whole input
valid exactly when both are valid; it copies the extracted fields unchanged;
and the three spec examples of invalid input are all rejected. -/
theorem claim_c9 :
    (∀ p : Parser.ParsedData,
      (Parser.validate_input p).age = p.age ∧
      (Parser.validate_input p).genres = p.genres ∧
      (Parser.validate_input p).original_input = p.original_input ∧
      ((Parser.validate_input p).age_valid = false ↔ p.age = none) ∧
      ((Parser.validate_input p).genres_valid = false ↔ p.genres = []) ∧
      ((Parser.validate_input p).is_valid = true ↔
        (Parser.validate_input p).age_valid = true ∧
          (Parser.validate_input p).genres_valid = true)) ∧
    (Parser.validate_input (Parser.parse_input "Hello, how are you?")).is_valid = false ∧
    (Parser.validate_input (Parser.parse_input "")).is_valid = false ∧
    (Parser.validate_input (Parser.parse_input "Age: old")).is_valid = false := by
  refine ⟨?_, by decide, by decide, by decide⟩
  intro p
  cases hp : p.age <;> cases hg : p.genres <;>
    simp [Parser.validate_input, hp, hg]

/-- Claim C10: every returned recommendation scores at least `0.3`, because
every candidate of either path lies in the age-eligible set and therefore
always earns the age-fit bonus. -/
theorem claim_c10 (age : Nat) (preferred_genres : List String) (rec : Engine.Recommendation)
    (hrec : rec ∈ (Engine.get_recommendations age preferred_genres).recommendations) :
    3/10 ≤ rec.relevance_score := by
  rw [recs_eq] at hrec
  obtain ⟨g, hg, rfl⟩ := mem_rank.mp hrec
  exact score_ge_of_age_fit preferred_genres (rating_le_of_mem_query (mem_pool_subset hg))

/-- Claim C10, witness: the top entry for an adult Action fan scores `0.9 ≥
0.3`. -/
theorem claim_c10_witness :
    3/10 ≤ (⟨"Grand Theft Auto V", some "Action", 18, 9/10, []⟩ :
      Engine.Recommendation).relevance_score :=
  claim_c10 18 ["Action"] _ (by decide)
